import Mathlib

/-!
Verification of `find_archive_files.py`: a script that enumerates GCP projects
in an organization, lists the buckets of each project, and searches each bucket
for archive files by extension.  External commands are modelled by an
environment `Env` mapping a command line to the process result it would
produce; every component of the script is embedded as a function of that
environment.
-/

namespace FindArchiveFiles

/-- The characters Python's `str.strip()` removes (ASCII whitespace). -/
def isPyWs (c : Char) : Bool :=
  c = ' ' || c = '\t' || c = '\n' || c = '\r' || c = '\x0b' || c = '\x0c'

/-- `headNotWs l` holds when `l` is empty or starts with a non-whitespace char. -/
def headNotWs : List Char → Bool
  | [] => true
  | c :: _ => !isPyWs c

/-- Python `str.strip()` on the character list: drop leading whitespace, then
trailing whitespace (via reverse). -/
def pyStripList (l : List Char) : List Char :=
  (((l.dropWhile isPyWs).reverse.dropWhile isPyWs)).reverse

/-- Python `s.strip()`. -/
def pyStrip (s : String) : String :=
  String.mk (pyStripList s.toList)

/-- Helper for `pySplitNl`: split a character list at every newline, keeping
empty segments, with `acc` the (reversed) current segment. -/
def splitNlAux : List Char → List Char → List (List Char)
  | [], acc => [acc.reverse]
  | c :: cs, acc =>
    if c = '\n' then acc.reverse :: splitNlAux cs [] else splitNlAux cs (c :: acc)

/-- Python `s.split('\n')`: split at every newline, keeping empty segments. -/
def pySplitNl (s : String) : List String :=
  (splitNlAux s.toList []).map String.mk

/-- The outcome of running one external process: exit status and the two
captured streams. -/
structure ProcResult where
  exitZero : Bool
  stdout : String
  stderr : String
deriving DecidableEq

/-- The external world: what each command line returns when executed. -/
def Env : Type := List String → ProcResult

/-- `run_gcloud_command`: run the command; on exit 0 return the stripped
stdout with `ok = true`, otherwise return the raw stderr with `ok = false`. -/
def run_gcloud_command (sys : Env) (command : List String) : String × Bool :=
  let r := sys command
  if r.exitZero then (pyStrip r.stdout, true) else (r.stderr, false)

/-- The `gcloud auth list` command issued by `check_auth`. -/
def authCmd : List String :=
  ["gcloud", "auth", "list", "--filter=status:ACTIVE", "--format=value(account)"]

/-- `check_auth`: true when the auth command exits 0 and prints a non-empty
(after stripping) account. -/
def check_auth (sys : Env) : Bool :=
  let r := sys authCmd
  if r.exitZero = false then false
  else if pyStrip r.stdout = "" then false else true

/-- The asset-search command issued by `get_projects`. -/
def projectsCmd (organization_id : String) : List String :=
  ["gcloud", "asset", "search-all-resources",
   "--scope=organizations/" ++ organization_id,
   "--asset-types=cloudresourcemanager.googleapis.com/Project",
   "--format=value(name.basename())", "--quiet"]

/-- `get_projects`: `none` models `sys.exit(1)` (taken when the command fails
or its stripped output is empty); otherwise the non-empty lines of the
output. -/
def get_projects (sys : Env) (organization_id : String) : Option (List String) :=
  let pr := run_gcloud_command sys (projectsCmd organization_id)
  if pr.2 = false ∨ pr.1 = "" then none
  else some ((pySplitNl pr.1).filter (fun p => decide (p ≠ "")))

/-- The `gcloud config set project` command issued by `get_buckets`. -/
def setProjectCmd (project_id : String) : List String :=
  ["gcloud", "config", "set", "project", project_id]

/-- The bare `gsutil ls` command issued by `get_buckets`. -/
def gsutilLsCmd : List String :=
  ["gsutil", "ls"]

/-- `get_buckets`: set the project context, then list buckets; failure of
either step yields `([], false)`; otherwise keep the non-empty lines ending
in `/`. -/
def get_buckets (sys : Env) (project_id : String) : List String × Bool :=
  let s1 := run_gcloud_command sys (setProjectCmd project_id)
  if s1.2 = false then ([], false)
  else
    let s2 := run_gcloud_command sys gsutilLsCmd
    if s2.2 = false then ([], false)
    else ((pySplitNl s2.1).filter (fun b => decide (b ≠ "") && b.endsWith "/"), true)

/-- The skip-listed bucket configured in `ArchiveFileFinder.__init__`. -/
def skipped_bucket : String := "gs://angels-bbops-video-dr/"

/-- The configured archive extensions, in order. -/
def archive_types : List String := [".zip", ".tar", ".tar.gz", ".gz"]

/-- The substring triggering the special debug listing in `search_bucket`. -/
def known_marker : String := "bkt-prj-b-seed-tfstate-b052"

/-- `gsutil ls <url>` (non-recursive listing). -/
def lsCmd (url : String) : List String :=
  ["gsutil", "ls", url]

/-- `gsutil ls -r <pattern>` (recursive listing). -/
def lsrCmd (pattern : String) : List String :=
  ["gsutil", "ls", "-r", pattern]

/-- The three broad debug patterns tried before the per-extension search. -/
def broad_patterns (bucket_url : String) : List String :=
  [bucket_url ++ "**", bucket_url ++ "*", bucket_url ++ "**/*"]

/-- The five glob patterns tried for one extension, in order. -/
def ext_patterns (bucket_url ext : String) : List String :=
  [bucket_url ++ "**" ++ ext,
   bucket_url ++ "*" ++ ext,
   bucket_url ++ "**/*" ++ ext,
   bucket_url ++ "*/*" ++ ext,
   bucket_url ++ "**/*." ++ ext]

/-- One matched file, before the project/bucket fields are merged in. -/
structure FileRec where
  file_type : String
  file_path : String
deriving DecidableEq

/-- The records contributed by one `gsutil ls -r <pattern>` invocation: empty
on failure or empty output, otherwise one record per non-empty output line
with `file_type` the extension minus its leading dot. -/
def patternRecords (sys : Env) (ext pattern : String) : List FileRec :=
  let pr := run_gcloud_command sys (lsrCmd pattern)
  if pr.2 = false then []
  else if pr.1 = "" then []
  else ((pySplitNl pr.1).filter (fun f => decide (f ≠ ""))).map
    (fun f => ⟨ext.drop 1, f⟩)

/-- The trace entry of the debug listing issued for a known bucket. -/
def knownBucketTrace (bucket_url : String) : List (List String) :=
  if known_marker.toList <:+: bucket_url.toList then [lsCmd bucket_url] else []

/-- `search_bucket`: skip the configured bucket entirely; otherwise issue the
debug listings and then, for each extension in order, the five pattern
listings, accumulating records and the trace of issued listing commands. -/
def search_bucket (sys : Env) (exts : List String) (bucket_url : String) :
    List FileRec × List (List String) :=
  if bucket_url = skipped_bucket then ([], [])
  else
    let st0 : List FileRec × List (List String) :=
      ([], knownBucketTrace bucket_url ++ (broad_patterns bucket_url).map lsrCmd)
    exts.foldl (fun st ext =>
      (ext_patterns bucket_url ext).foldl (fun st2 p =>
        (st2.1 ++ patternRecords sys ext p, st2.2 ++ [lsrCmd p])) st) st0

/-- One row of the final report: the merged record. -/
structure FullRec where
  project_id : String
  bucket_url : String
  file_type : String
  file_path : String
deriving DecidableEq

/-- `process_project`: enumerate buckets; on denial return an empty outcome
with `has_permission = false`; otherwise search every bucket in listed order,
merging the project id and bucket URL into each record.  The second component
is the list of bucket URLs passed to `search_bucket` (call instrumentation). -/
def process_project (sys : Env) (project_id : String) :
    (List FullRec × Bool) × List String :=
  let gb := get_buckets sys project_id
  if gb.2 = false then (([], false), [])
  else if gb.1 = [] then (([], true), [])
  else
    let results := gb.1.foldl (fun acc bucket_url =>
      acc ++ ((search_bucket sys archive_types bucket_url).1.map
        (fun r => ⟨project_id, bucket_url, r.file_type, r.file_path⟩))) []
    ((results, true), gb.1)

/-- The aggregation loop of `run`: concatenate all records and count the
outcomes with `has_permission = false`. -/
def aggregate (outs : List (List FullRec × Bool)) : List FullRec × Nat :=
  outs.foldl (fun acc o => (acc.1 ++ o.1, if o.2 = false then acc.2 + 1 else acc.2))
    ([], 0)

/-- How a run terminates: `fatalExit` models `sys.exit(1)`, `noResults` the
early `return` on an empty project list, `completed` normal completion with
the aggregated records and the denied-project count. -/
inductive RunOutcome
  | fatalExit : RunOutcome
  | noResults : RunOutcome
  | completed : List FullRec → Nat → RunOutcome
deriving DecidableEq

/-- `run`: auth check, project enumeration, per-project processing (the
thread pool's `map` preserves input order), aggregation. -/
def run (sys : Env) (organization_id : String) : RunOutcome :=
  if check_auth sys = false then RunOutcome.fatalExit
  else
    match get_projects sys organization_id with
    | none => RunOutcome.fatalExit
    | some projects =>
      if projects = [] then RunOutcome.noResults
      else
        let agg := aggregate (projects.map (fun p => (process_project sys p).1))
        RunOutcome.completed agg.1 agg.2

/-- The spec's words only, for comparison with what the code does: trimming
*trailing* whitespace and nothing else. -/
def trimTrailingWs (s : String) : String :=
  String.mk (s.toList.reverse.dropWhile isPyWs).reverse

/-- Environment where every command succeeds with empty output. -/
def constOkSys : Env := fun _ => ⟨true, "", ""⟩

/-- Environment where every command succeeds and lists a single zip file. -/
def allZipSys : Env := fun _ => ⟨true, "gs://x/a.zip", ""⟩

/-- Environment where every command fails. -/
def deniedSys : Env := fun _ => ⟨false, "", "boom"⟩

/-- Environment where every command fails with stderr ending in a newline. -/
def errSys : Env := fun _ => ⟨false, "", "err\n"⟩

/-- Environment where every command succeeds with leading-space output. -/
def spacedSys : Env := fun _ => ⟨true, "  out", ""⟩

/-- Environment where authentication succeeds but every other command
(including project enumeration) succeeds with empty output. -/
def emptyEnumSys : Env :=
  fun c => if c = authCmd then ⟨true, "me", ""⟩ else ⟨true, "", ""⟩

/-- Environment where the bucket listing succeeds with empty output and every
other command succeeds. -/
def emptyLsSys : Env :=
  fun c => if c = gsutilLsCmd then ⟨true, "", ""⟩ else ⟨true, "ok", ""⟩

/-- Like `allZipSys`, but every listing command for a `.zip` pattern of the
bucket `gs://b/` fails. -/
def zipFailSys : Env :=
  fun c => if c ∈ (ext_patterns "gs://b/" ".zip").map lsrCmd
    then ⟨false, "", "err"⟩ else ⟨true, "gs://x/a.zip", ""⟩

/-- A sample project outcome with one record. -/
def outA : List FullRec × Bool := ([⟨"p1", "gs://b/", "zip", "gs://b/a.zip"⟩], true)

/-- A sample denied project outcome. -/
def outB : List FullRec × Bool := ([], false)

/-! ## Helper lemmas -/

theorem foldl_append_flatMap {α β : Type} (f : α → List β) (l : List α) (a0 : List β) :
    l.foldl (fun acc x => acc ++ f x) a0 = a0 ++ l.flatMap f := by
  induction l generalizing a0 with
  | nil => simp
  | cons x xs ih => simp [ih, List.append_assoc]

theorem flatMap_congr {α β : Type} {l : List α} {f g : α → List β}
    (h : ∀ a ∈ l, f a = g a) : l.flatMap f = l.flatMap g := by
  induction l with
  | nil => simp
  | cons x xs ih =>
    simp only [List.flatMap_cons, h x (by simp)]
    rw [ih (fun a ha => h a (by simp [ha]))]

theorem pattern_foldl (sys : Env) (ext : String) (ps : List String)
    (st : List FileRec × List (List String)) :
    ps.foldl (fun st2 p => (st2.1 ++ patternRecords sys ext p, st2.2 ++ [lsrCmd p])) st
      = (st.1 ++ ps.flatMap (patternRecords sys ext), st.2 ++ ps.map lsrCmd) := by
  induction ps generalizing st with
  | nil => simp
  | cons p ps ih => simp [ih, List.append_assoc]

theorem search_foldl (sys : Env) (url : String) (exts : List String)
    (st : List FileRec × List (List String)) :
    exts.foldl (fun st ext =>
        (ext_patterns url ext).foldl (fun st2 p =>
          (st2.1 ++ patternRecords sys ext p, st2.2 ++ [lsrCmd p])) st) st
      = (st.1 ++ exts.flatMap (fun ext =>
            (ext_patterns url ext).flatMap (patternRecords sys ext)),
         st.2 ++ exts.flatMap (fun ext => (ext_patterns url ext).map lsrCmd)) := by
  induction exts generalizing st with
  | nil => simp
  | cons e es ih =>
    rw [List.foldl_cons, pattern_foldl, ih]
    simp [List.append_assoc]

theorem search_bucket_eq (sys : Env) (exts : List String) (url : String) :
    search_bucket sys exts url =
      if url = skipped_bucket then ([], [])
      else
        (exts.flatMap (fun ext => (ext_patterns url ext).flatMap (patternRecords sys ext)),
         knownBucketTrace url ++ (broad_patterns url).map lsrCmd
           ++ exts.flatMap (fun ext => (ext_patterns url ext).map lsrCmd)) := by
  unfold search_bucket
  split
  · rfl
  · rw [search_foldl]
    simp [List.append_assoc]

theorem search_bucket_records (sys : Env) (exts : List String) (url : String)
    (h : url ≠ skipped_bucket) :
    (search_bucket sys exts url).1
      = exts.flatMap (fun ext => (ext_patterns url ext).flatMap (patternRecords sys ext)) := by
  rw [search_bucket_eq]
  simp [h]

theorem search_bucket_trace (sys : Env) (exts : List String) (url : String)
    (h : url ≠ skipped_bucket) :
    (search_bucket sys exts url).2
      = knownBucketTrace url ++ (broad_patterns url).map lsrCmd
        ++ exts.flatMap (fun ext => (ext_patterns url ext).map lsrCmd) := by
  rw [search_bucket_eq]
  simp [h]

theorem run_gcloud_snd (sys : Env) (c : List String) :
    (run_gcloud_command sys c).2 = (sys c).exitZero := by
  unfold run_gcloud_command
  dsimp only
  split <;> simp_all

theorem run_gcloud_fst_ok (sys : Env) (c : List String)
    (h : (sys c).exitZero = true) :
    (run_gcloud_command sys c).1 = pyStrip (sys c).stdout := by
  unfold run_gcloud_command
  simp [h]

theorem run_gcloud_fst_err (sys : Env) (c : List String)
    (h : (sys c).exitZero = false) :
    (run_gcloud_command sys c).1 = (sys c).stderr := by
  unfold run_gcloud_command
  simp [h]

theorem get_buckets_denied_nil (sys : Env) (pid : String)
    (h : (get_buckets sys pid).2 = false) : (get_buckets sys pid).1 = [] := by
  unfold get_buckets at h ⊢
  dsimp only at h ⊢
  by_cases h1 : (run_gcloud_command sys (setProjectCmd pid)).2 = false
  · simp [h1]
  · by_cases h2 : (run_gcloud_command sys gsutilLsCmd).2 = false
    · simp [h1, h2]
    · simp [h1, h2] at h

theorem patternRecords_fail (sys : Env) (ext p : String)
    (h : (sys (lsrCmd p)).exitZero = false) : patternRecords sys ext p = [] := by
  unfold patternRecords
  simp [run_gcloud_snd, h]

theorem patternRecords_congr (sys sys' : Env) (ext p : String)
    (h : sys' (lsrCmd p) = sys (lsrCmd p)) :
    patternRecords sys' ext p = patternRecords sys ext p := by
  unfold patternRecords run_gcloud_command
  rw [h]

theorem headNotWs_dropWhile (l : List Char) :
    headNotWs (l.dropWhile isPyWs) = true := by
  induction l with
  | nil => rfl
  | cons c cs ih =>
    rw [List.dropWhile_cons]
    by_cases h : isPyWs c = true
    · simp [h, ih]
    · simp [h, headNotWs]

theorem headNotWs_initial {l₁ l₂ : List Char} (h : l₁ <+: l₂)
    (h2 : headNotWs l₂ = true) : headNotWs l₁ = true := by
  obtain ⟨t, rfl⟩ := h
  cases l₁ with
  | nil => rfl
  | cons c cs => simpa [headNotWs] using h2

theorem headNotWs_trimTrailing (l : List Char) (h : headNotWs l = true) :
    headNotWs ((l.reverse.dropWhile isPyWs).reverse) = true := by
  apply headNotWs_initial _ h
  have hs : l.reverse.dropWhile isPyWs <:+ l.reverse := List.dropWhile_suffix _
  have := List.reverse_prefix.mpr hs
  simpa using this

theorem pyStrip_no_edge_ws (s : String) :
    headNotWs (pyStrip s).toList = true ∧ headNotWs (pyStrip s).toList.reverse = true := by
  constructor
  · exact headNotWs_trimTrailing _ (headNotWs_dropWhile _)
  · show headNotWs (pyStripList s.toList).reverse = true
    unfold pyStripList
    rw [List.reverse_reverse]
    exact headNotWs_dropWhile _

theorem string_mk_ne_empty {l : List Char} (h : l ≠ []) : String.mk l ≠ "" := by
  intro he
  apply h
  have hd : (String.mk l).data = ("" : String).data := by rw [he]
  simpa using hd

theorem toList_ne_nil_of_ne_empty {s : String} (h : s ≠ "") : s.toList ≠ [] := by
  intro hl
  exact h (String.ext (by simpa using hl))

theorem splitNlAux_ne_nil_head (cs : List Char) :
    ∀ acc, acc ≠ [] → ∃ l t, splitNlAux cs acc = l :: t ∧ l ≠ [] := by
  induction cs with
  | nil =>
    intro acc h
    exact ⟨acc.reverse, [], rfl, by simpa using h⟩
  | cons c cs ih =>
    intro acc h
    by_cases hc : c = '\n'
    · refine ⟨acc.reverse, splitNlAux cs [], ?_, by simpa using h⟩
      simp [splitNlAux, hc]
    · have := ih (c :: acc) (by simp)
      simpa [splitNlAux, hc] using this

theorem filter_pySplitNl_pyStrip_ne_nil (s : String) (h : pyStrip s ≠ "") :
    (pySplitNl (pyStrip s)).filter (fun p => decide (p ≠ "")) ≠ [] := by
  have hl : (pyStrip s).toList ≠ [] := toList_ne_nil_of_ne_empty h
  have hh : headNotWs (pyStrip s).toList = true := (pyStrip_no_edge_ws s).1
  cases hx : (pyStrip s).toList with
  | nil => exact absurd hx hl
  | cons c cs =>
    have hcnl : c ≠ '\n' := by
      rw [hx] at hh
      intro he
      rw [he] at hh
      simp [headNotWs, isPyWs] at hh
    unfold pySplitNl
    rw [hx]
    have hsplit : splitNlAux (c :: cs) [] = splitNlAux cs [c] := by
      simp [splitNlAux, hcnl]
    rw [hsplit]
    obtain ⟨l, t, heq, hne⟩ := splitNlAux_ne_nil_head cs [c] (by simp)
    rw [heq]
    rw [List.map_cons, List.filter_cons]
    rw [if_pos (by simpa using string_mk_ne_empty hne)]
    exact List.cons_ne_nil _ _

theorem get_projects_ne_some_nil (sys : Env) (org : String) :
    get_projects sys org ≠ some [] := by
  unfold get_projects
  dsimp only
  split
  · simp
  · rename_i hcond
    push_neg at hcond
    intro h
    simp only [Option.some.injEq] at h
    have hok : (run_gcloud_command sys (projectsCmd org)).2 = true := by
      have := hcond.1
      simpa using this
    have hne : (run_gcloud_command sys (projectsCmd org)).1 ≠ "" := hcond.2
    have hz : (sys (projectsCmd org)).exitZero = true := by
      rw [← run_gcloud_snd]
      exact hok
    rw [run_gcloud_fst_ok sys _ hz] at h hne
    exact filter_pySplitNl_pyStrip_ne_nil _ hne h

/-! ## Claim theorems -/

/-- Claim C1: for every project processed by `process_project`, if the outcome
has `permission_denied` (i.e. `has_permission = false`) then its record list
is empty and no `search_bucket` call is made for that project (the list of
bucket URLs passed to `search_bucket` is empty). -/
theorem process_project_denied_no_records_no_search (sys : Env) (pid : String)
    (h : (process_project sys pid).1.2 = false) :
    (process_project sys pid).1.1 = [] ∧ (process_project sys pid).2 = [] := by
  unfold process_project at h ⊢
  dsimp only at h ⊢
  by_cases h1 : (get_buckets sys pid).2 = false
  · simp [h1]
  · simp [h1] at h
    split at h <;> simp_all

/-- Witness for C1: an environment where setting the project context fails,
so the project is denied, yields no records and no bucket search. -/
theorem process_project_denied_witness :
    (process_project deniedSys "proj-1").1.1 = []
    ∧ (process_project deniedSys "proj-1").2 = [] :=
  process_project_denied_no_records_no_search deniedSys "proj-1" (by decide)

/-- Claim C4: `get_buckets` returns `([], false)` exactly when setting the
project context or listing buckets fails; a successful listing with empty
output returns `([], true)`; and every returned bucket URI ends with `/`. -/
theorem get_buckets_characterization (sys : Env) (pid : String) :
    (get_buckets sys pid = ([], false) ↔
      ((sys (setProjectCmd pid)).exitZero = false ∨ (sys gsutilLsCmd).exitZero = false))
    ∧ ((sys (setProjectCmd pid)).exitZero = true → (sys gsutilLsCmd).exitZero = true →
        pyStrip (sys gsutilLsCmd).stdout = "" → get_buckets sys pid = ([], true))
    ∧ (∀ b ∈ (get_buckets sys pid).1, b.endsWith "/" = true) := by
  have hs1 : (run_gcloud_command sys (setProjectCmd pid)).2
      = (sys (setProjectCmd pid)).exitZero := run_gcloud_snd sys _
  have hs2 : (run_gcloud_command sys gsutilLsCmd).2
      = (sys gsutilLsCmd).exitZero := run_gcloud_snd sys _
  unfold get_buckets
  dsimp only
  refine ⟨?_, ?_, ?_⟩
  · by_cases h1 : (run_gcloud_command sys (setProjectCmd pid)).2 = false
    · simp [h1]
      exact Or.inl (by rw [← hs1]; exact h1)
    · by_cases h2 : (run_gcloud_command sys gsutilLsCmd).2 = false
      · simp [h1, h2]
        exact Or.inr (by rw [← hs2]; exact h2)
      · have hz1 : (sys (setProjectCmd pid)).exitZero = true := by
          rw [← hs1]
          simpa using h1
        have hz2 : (sys gsutilLsCmd).exitZero = true := by
          rw [← hs2]
          simpa using h2
        simp [h1, h2, hz1, hz2]
  · intro hz1 hz2 hempty
    have h1 : ¬(run_gcloud_command sys (setProjectCmd pid)).2 = false := by
      rw [hs1, hz1]; simp
    have h2 : ¬(run_gcloud_command sys gsutilLsCmd).2 = false := by
      rw [hs2, hz2]; simp
    rw [run_gcloud_fst_ok sys _ hz2]
    simp [h1, h2, hempty]
    decide
  · by_cases h1 : (run_gcloud_command sys (setProjectCmd pid)).2 = false
    · simp [h1]
    · by_cases h2 : (run_gcloud_command sys gsutilLsCmd).2 = false
      · simp [h1, h2]
      · rw [if_neg h1, if_neg h2]
        intro b hb
        exact (Bool.and_eq_true _ _ |>.mp (List.mem_filter.mp hb).2).2

/-- Witness for C4: project context set succeeds and the bucket listing
succeeds with empty output, giving zero buckets with permission intact. -/
theorem get_buckets_characterization_witness :
    get_buckets emptyLsSys "proj-2" = ([], true) :=
  (get_buckets_characterization emptyLsSys "proj-2").2.1 (by decide) (by decide) (by decide)

/-- Claim C5: for the configured skip URI, `search_bucket` returns no records,
whatever the environment returns and whatever the extension list is. -/
theorem search_bucket_skipped_empty (sys : Env) (exts : List String) :
    (search_bucket sys exts skipped_bucket).1 = [] := by
  unfold search_bucket
  simp

/-- Claim C8: the records of `process_project` are exactly, in bucket listed
order, each bucket's `search_bucket` records in returned order, merged with
the project id and that bucket's URL. -/
theorem process_project_records_characterization (sys : Env) (pid : String) :
    (process_project sys pid).1.1
      = (get_buckets sys pid).1.flatMap (fun bucket_url =>
          (search_bucket sys archive_types bucket_url).1.map
            (fun r => ⟨pid, bucket_url, r.file_type, r.file_path⟩)) := by
  unfold process_project
  dsimp only
  by_cases h1 : (get_buckets sys pid).2 = false
  · simp [h1, get_buckets_denied_nil sys pid h1]
  · by_cases h2 : (get_buckets sys pid).1 = []
    · simp [h1, h2]
    · rw [if_neg h1, if_neg h2]
      dsimp only
      rw [foldl_append_flatMap]
      simp

theorem aggregate_foldl (outs : List (List FullRec × Bool)) :
    ∀ (a : List FullRec) (n : Nat),
    outs.foldl (fun acc o => (acc.1 ++ o.1, if o.2 = false then acc.2 + 1 else acc.2)) (a, n)
      = (a ++ outs.flatMap (fun o => o.1),
         n + outs.countP (fun o => decide (o.2 = false))) := by
  induction outs with
  | nil => intro a n; simp
  | cons o os ih =>
    intro a n
    rw [List.foldl_cons, ih]
    by_cases h : o.2 = false <;> simp [h, List.countP_cons, List.append_assoc]
    omega

theorem aggregate_eq (outs : List (List FullRec × Bool)) :
    aggregate outs = (outs.flatMap (fun o => o.1),
      outs.countP (fun o => decide (o.2 = false))) := by
  unfold aggregate
  rw [aggregate_foldl]
  simp

/-- Claim C9: the aggregate record count equals the sum of per-project record
counts, and is invariant under permuting the collected outcomes. -/
theorem aggregate_count_perm_invariant (outs outs' : List (List FullRec × Bool))
    (h : outs.Perm outs') :
    (aggregate outs).1.length = (outs.map (fun o => o.1.length)).sum
    ∧ (aggregate outs').1.length = (aggregate outs).1.length := by
  have len : ∀ os : List (List FullRec × Bool),
      (aggregate os).1.length = (os.map (fun o => o.1.length)).sum := by
    intro os
    rw [aggregate_eq]
    simp [List.length_flatMap, Function.comp_def]
  exact ⟨len outs, by rw [len outs, len outs', ((h.map (fun o => o.1.length)).sum_eq)]⟩

/-- Witness for C9: two concrete outcomes, swapped. -/
theorem aggregate_count_perm_invariant_witness :
    (aggregate [outA, outB]).1.length = ([outA, outB].map (fun o => o.1.length)).sum
    ∧ (aggregate [outB, outA]).1.length = (aggregate [outA, outB]).1.length :=
  aggregate_count_perm_invariant [outA, outB] [outB, outA] (List.Perm.swap _ _ _)

/-- Claim C3 counterexample: when authentication succeeds and project
enumeration succeeds with empty output, the run takes the fatal `exit(1)`
path inside `get_projects`, not a non-fatal no-results path. -/
theorem run_empty_enumeration_fatal :
    run emptyEnumSys "org-1" = RunOutcome.fatalExit
    ∧ RunOutcome.fatalExit ≠ RunOutcome.noResults := by
  decide

/-- Claim C3 amended: a successful-but-empty enumeration takes the same fatal
non-zero-exit path as a failed enumeration command, and the non-fatal
no-results branch of `run` is unreachable for every environment. -/
theorem run_no_results_unreachable (sys : Env) (org : String) :
    run sys org ≠ RunOutcome.noResults
    ∧ (check_auth sys = true → (sys (projectsCmd org)).exitZero = true →
        pyStrip (sys (projectsCmd org)).stdout = "" → run sys org = RunOutcome.fatalExit) := by
  constructor
  · unfold run
    by_cases hauth : check_auth sys = false
    · simp [hauth]
    · rw [if_neg hauth]
      cases hgp : get_projects sys org with
      | none => simp
      | some ps =>
        by_cases hps : ps = []
        · exact absurd (hps ▸ hgp) (get_projects_ne_some_nil sys org)
        · simp [hps]
  · intro hauth hz hempty
    have hnone : get_projects sys org = none := by
      unfold get_projects
      dsimp only
      rw [if_pos]
      exact Or.inr (by rw [run_gcloud_fst_ok sys _ hz]; exact hempty)
    unfold run
    rw [if_neg (by simp [hauth]), hnone]

/-- Witness for the C3 amended theorem: the concrete empty-enumeration
environment exits fatally. -/
theorem run_no_results_unreachable_witness :
    run emptyEnumSys "org-2" = RunOutcome.fatalExit :=
  (run_no_results_unreachable emptyEnumSys "org-2").2 (by decide) (by decide) (by decide)

/-- Claim C7 counterexample: on failure the returned error text is not
trimmed of trailing whitespace at all, and on success the output is not
merely the stdout trimmed of trailing whitespace (leading whitespace is
removed too). -/
theorem run_gcloud_command_trim_counterexample :
    (run_gcloud_command errSys gsutilLsCmd).1 ≠ trimTrailingWs (errSys gsutilLsCmd).stderr
    ∧ (run_gcloud_command spacedSys gsutilLsCmd).1
      ≠ trimTrailingWs (spacedSys gsutilLsCmd).stdout := by
  decide

/-- Claim C7 amended: `run_gcloud_command` succeeds exactly when the command
exits zero; on success the output is the stdout stripped of both leading and
trailing whitespace (so it has neither), and on failure the output is the raw
stderr, untrimmed. -/
theorem run_gcloud_command_characterization (sys : Env) (c : List String) :
    ((run_gcloud_command sys c).2 = (sys c).exitZero)
    ∧ ((sys c).exitZero = true →
        (run_gcloud_command sys c).1 = pyStrip (sys c).stdout
        ∧ headNotWs (run_gcloud_command sys c).1.toList = true
        ∧ headNotWs (run_gcloud_command sys c).1.toList.reverse = true)
    ∧ ((sys c).exitZero = false → (run_gcloud_command sys c).1 = (sys c).stderr) := by
  refine ⟨run_gcloud_snd sys c, fun h => ?_, fun h => run_gcloud_fst_err sys c h⟩
  rw [run_gcloud_fst_ok sys c h]
  exact ⟨rfl, (pyStrip_no_edge_ws _).1, (pyStrip_no_edge_ws _).2⟩

/-- Witness for the C7 amended theorem at concrete environments. -/
theorem run_gcloud_command_characterization_witness :
    (run_gcloud_command spacedSys gsutilLsCmd).1 = pyStrip "  out"
    ∧ (run_gcloud_command errSys gsutilLsCmd).1 = "err\n" := by
  constructor
  · exact ((run_gcloud_command_characterization spacedSys gsutilLsCmd).2.1 rfl).1
  · exact (run_gcloud_command_characterization errSys gsutilLsCmd).2.2 rfl

/-- Claim C10: the skip exemption is exact string equality: any bucket URL
other than the skip URI (including the URI without its trailing slash or
with different letter case) is searched normally, producing exactly the
per-extension pattern records. -/
theorem search_bucket_exact_skip_match (sys : Env) (exts : List String) (url : String) :
    (url ≠ skipped_bucket →
      (search_bucket sys exts url).1
        = exts.flatMap (fun ext => (ext_patterns url ext).flatMap (patternRecords sys ext)))
    ∧ ("gs://angels-bbops-video-dr" ≠ skipped_bucket)
    ∧ ("gs://Angels-bbops-video-dr/" ≠ skipped_bucket) :=
  ⟨fun h => search_bucket_records sys exts url h, by decide, by decide⟩

/-- Witness for C10: the skip URI minus its trailing slash is searched
normally and yields records (one per extension and pattern here). -/
theorem search_bucket_exact_skip_match_witness :
    (search_bucket allZipSys archive_types "gs://angels-bbops-video-dr").1
      = archive_types.flatMap (fun ext =>
          (ext_patterns "gs://angels-bbops-video-dr" ext).flatMap (patternRecords allZipSys ext))
    ∧ (search_bucket allZipSys archive_types "gs://angels-bbops-video-dr").1.length = 20 := by
  have h := (search_bucket_exact_skip_match allZipSys archive_types
    "gs://angels-bbops-video-dr").1 (by decide)
  exact ⟨h, by rw [h]; decide⟩

theorem string_ne_of_length_ne {x y : String} (h : x.data.length ≠ y.data.length) :
    x ≠ y := by
  intro he
  exact h (by rw [he])

theorem ext_pattern_lengths (url ext : String) :
    (url ++ "**" ++ ext).data.length = url.data.length + ext.data.length + 2
    ∧ (url ++ "*" ++ ext).data.length = url.data.length + ext.data.length + 1
    ∧ (url ++ "**/*" ++ ext).data.length = url.data.length + ext.data.length + 4
    ∧ (url ++ "*/*" ++ ext).data.length = url.data.length + ext.data.length + 3
    ∧ (url ++ "**/*." ++ ext).data.length = url.data.length + ext.data.length + 5 := by
  have e1 : ("**" : String).data.length = 2 := rfl
  have e2 : ("*" : String).data.length = 1 := rfl
  have e3 : ("**/*" : String).data.length = 4 := rfl
  have e4 : ("*/*" : String).data.length = 3 := rfl
  have e5 : ("**/*." : String).data.length = 5 := rfl
  refine ⟨?_, ?_, ?_, ?_, ?_⟩ <;>
    simp [String.data_append, e1, e2, e3, e4, e5] <;> omega

theorem ext_patterns_filter_count (url ext : String) :
    ((ext_patterns url ext).filter (fun p => decide (p = url ++ "*" ++ ext))).length = 1 := by
  obtain ⟨l1, l2, l3, l4, l5⟩ := ext_pattern_lengths url ext
  have n1 : url ++ "**" ++ ext ≠ url ++ "*" ++ ext := string_ne_of_length_ne (by omega)
  have n3 : url ++ "**/*" ++ ext ≠ url ++ "*" ++ ext := string_ne_of_length_ne (by omega)
  have n4 : url ++ "*/*" ++ ext ≠ url ++ "*" ++ ext := string_ne_of_length_ne (by omega)
  have n5 : url ++ "**/*." ++ ext ≠ url ++ "*" ++ ext := string_ne_of_length_ne (by omega)
  simp [ext_patterns, List.filter, n1, n3, n4, n5]

/-- Claim C2 counterexample: for the non-skipped bucket `gs://b/`, the code
issues five recursive listing commands for the `.zip` extension alone, not
exactly one. -/
theorem search_bucket_not_one_command_per_extension :
    ((search_bucket constOkSys archive_types "gs://b/").2.filter
        (fun c => decide (c ∈ (ext_patterns "gs://b/" ".zip").map lsrCmd))).length = 5
    ∧ (5 : Nat) ≠ 1 := by
  decide

/-- Claim C2 amended: for every non-skipped bucket the extension list is
iterated in order and five recursive listing commands are issued per
extension, with the fixed pattern shapes; exactly one of the five patterns is
the bucket URL followed by `*` followed by the extension. -/
theorem search_bucket_trace_characterization (sys : Env) (exts : List String) (url : String)
    (h : url ≠ skipped_bucket) :
    (search_bucket sys exts url).2
      = knownBucketTrace url ++ (broad_patterns url).map lsrCmd
        ++ exts.flatMap (fun ext => (ext_patterns url ext).map lsrCmd)
    ∧ ∀ ext, ((ext_patterns url ext).filter
        (fun p => decide (p = url ++ "*" ++ ext))).length = 1 :=
  ⟨search_bucket_trace sys exts url h, fun ext => ext_patterns_filter_count url ext⟩

/-- Witness for the C2 amended theorem: for `gs://b/` the full trace has
3 broad commands plus 4 extensions times 5 patterns, 23 commands. -/
theorem search_bucket_trace_characterization_witness :
    (search_bucket constOkSys archive_types "gs://b/").2.length = 23 := by
  have h := (search_bucket_trace_characterization constOkSys archive_types
    "gs://b/" (by decide)).1
  rw [h]
  decide

/-- Claim C6: a listing command failing for one extension is treated as zero
matches: that extension contributes no records and every other extension's
records are exactly those obtained with the non-failing environment. -/
theorem search_bucket_failed_extension_isolated (sys sys' : Env) (exts : List String)
    (url ext0 : String) (hurl : url ≠ skipped_bucket)
    (hfail : ∀ p ∈ ext_patterns url ext0, (sys' (lsrCmd p)).exitZero = false)
    (hagree : ∀ e ∈ exts, e ≠ ext0 → ∀ p ∈ ext_patterns url e,
      sys' (lsrCmd p) = sys (lsrCmd p)) :
    (search_bucket sys' exts url).1
      = exts.flatMap (fun e =>
          if e = ext0 then []
          else (ext_patterns url e).flatMap (patternRecords sys e)) := by
  rw [search_bucket_records sys' exts url hurl]
  apply flatMap_congr
  intro e he
  by_cases hext : e = ext0
  · subst hext
    rw [if_pos rfl]
    have hz : ∀ p ∈ ext_patterns url e, patternRecords sys' e p = [] :=
      fun p hp => patternRecords_fail sys' e p (hfail p hp)
    calc (ext_patterns url e).flatMap (patternRecords sys' e)
        = (ext_patterns url e).flatMap (fun _ => []) := flatMap_congr hz
      _ = [] := by simp
  · rw [if_neg hext]
    exact flatMap_congr (fun p hp => patternRecords_congr sys sys' e p (hagree e he hext p hp))

/-- Witness for C6: an environment failing exactly on the `.zip` patterns of
`gs://b/` yields the other three extensions' records unchanged. -/
theorem search_bucket_failed_extension_witness :
    (search_bucket zipFailSys archive_types "gs://b/").1
      = archive_types.flatMap (fun e =>
          if e = ".zip" then []
          else (ext_patterns "gs://b/" e).flatMap (patternRecords allZipSys e)) :=
  search_bucket_failed_extension_isolated allZipSys zipFailSys archive_types "gs://b/" ".zip"
    (by decide) (by decide) (by decide)

end FindArchiveFiles
